import Mathlib

/-!
Verification development for the User Manager single-page application
(src/src/App.jsx). The component keeps a flat set of state fields
(users, posts, albums, loading flags, form fields, one shared error
string) and mutates them in event handlers that perform sequential
fetch calls. We embed each handler as a pure function from the state,
the network responses it consumes, and any other inputs (current
timestamp, file read outcome) to the successor state, together with
the list of requests it issues where a claim is about requests.
-/

namespace UserManager

/-- Outcome of one fetch call followed by parsing the JSON body:
either the promise resolved, carrying the ok flag of the HTTP response
and the parsed body, or the fetch (or body parse) threw. -/
inductive FetchResult (α : Type) where
  | success (ok : Bool) (body : α)
  | failure
  deriving DecidableEq, Repr

/-- A user record as held in the users list. Only the fields the
handlers read or write are modelled. -/
structure User where
  id : Nat
  name : String
  email : String
  avatar : String
  deriving DecidableEq, Repr

/-- A post record from the posts endpoint. -/
structure Post where
  id : Nat
  title : String
  body : String
  userId : Nat
  deriving DecidableEq, Repr

/-- An album record from the albums endpoint. -/
structure Album where
  id : Nat
  title : String
  userId : Nat
  deriving DecidableEq, Repr

/-- An album as stored in state after loadAlbums: the album spread
together with the derived thumbnailUrl field (none models null). -/
structure AlbumWithThumb where
  id : Nat
  title : String
  userId : Nat
  thumbnailUrl : Option String
  deriving DecidableEq, Repr

/-- A photo record from the photos endpoint; the thumbnailUrl JSON
field as a string (the empty string is the falsy string value). -/
structure Photo where
  thumbnailUrl : String
  deriving DecidableEq, Repr

/-- A dropped or picked file: its MIME type string and size in bytes. -/
structure File where
  type : String
  size : Nat
  deriving DecidableEq, Repr

/-- The active tab of the posts/albums modal. -/
inductive Tab where
  | posts
  | albums
  deriving DecidableEq, Repr

/-- The component state: one field per useState hook of App. -/
structure AppState where
  users : List User
  selectedUser : Option User
  posts : List Post
  loadingUsers : Bool
  loadingPosts : Bool
  error : String
  name : String
  email : String
  avatarPreview : String
  avatarFile : Option File
  editId : Option Nat
  formLoading : Bool
  isDragging : Bool
  showPostForm : Bool
  postTitle : String
  postBody : String
  postLoading : Bool
  albums : List AlbumWithThumb
  loadingAlbums : Bool
  activeTab : Tab
  darkMode : Bool
  deriving DecidableEq, Repr

/-- The JS test !s.trim() used by the validation guards: true exactly
when every character of s is whitespace (trim strips whitespace from
both ends, so the trimmed string is empty iff nothing else is there).
Stated over the character list so that it evaluates by reduction. -/
def isBlank (s : String) : Bool :=
  s.data.all Char.isWhitespace

/-- Character-list core of the JS String.prototype.startsWith test. -/
def leadsWith : List Char → List Char → Bool
  | [], _ => true
  | _ :: _, [] => false
  | p :: ps, c :: cs => (p == c) && leadsWith ps cs

/-- The JS test s.startsWith(pat), over the character lists so that it
evaluates by reduction. -/
def strStartsWith (s pat : String) : Bool :=
  leadsWith pat.data s.data

/-- The initial state of the hooks (users [], no selection, empty
forms, posts tab; darkMode taken as false). -/
def initState : AppState :=
  { users := [], selectedUser := none, posts := [], loadingUsers := false,
    loadingPosts := false, error := "", name := "", email := "",
    avatarPreview := "", avatarFile := none, editId := none,
    formLoading := false, isDragging := false, showPostForm := false,
    postTitle := "", postBody := "", postLoading := false, albums := [],
    loadingAlbums := false, activeTab := Tab.posts, darkMode := false }

/-! ### loadUsers -/

/-- First phase of loadUsers: setLoadingUsers(true); setError(""). -/
def loadUsersStart (s : AppState) : AppState :=
  { s with loadingUsers := true, error := "" }

/-- Second phase of loadUsers: on an ok response store the first 9
users of the body; a non-ok response throws and is caught together
with network failures, setting the shared error; the finally block
clears the loading flag on every path. -/
def loadUsersFinish (s : AppState) (r : FetchResult (List User)) : AppState :=
  match r with
  | FetchResult.success true data =>
      { s with users := data.take 9, loadingUsers := false }
  | FetchResult.success false _ =>
      { s with error := "Failed to load users.", loadingUsers := false }
  | FetchResult.failure =>
      { s with error := "Failed to load users.", loadingUsers := false }

/-- loadUsers run to completion against one users response. -/
def loadUsers (s : AppState) (r : FetchResult (List User)) : AppState :=
  loadUsersFinish (loadUsersStart s) r

/-! ### loadPosts -/

/-- First phase of loadPosts: setLoadingPosts(true); setError(""). -/
def loadPostsStart (s : AppState) : AppState :=
  { s with loadingPosts := true, error := "" }

/-- Second phase of loadPosts: store the body on ok, otherwise set the
shared error; the finally block clears the loading flag. The userId
only selects the URL and does not affect the state update. -/
def loadPostsFinish (s : AppState) (r : FetchResult (List Post)) : AppState :=
  match r with
  | FetchResult.success true data =>
      { s with posts := data, loadingPosts := false }
  | FetchResult.success false _ =>
      { s with error := "Failed to load posts.", loadingPosts := false }
  | FetchResult.failure =>
      { s with error := "Failed to load posts.", loadingPosts := false }

/-- loadPosts run to completion against one posts response. -/
def loadPosts (s : AppState) (r : FetchResult (List Post)) : AppState :=
  loadPostsFinish (loadPostsStart s) r

/-! ### loadAlbums -/

/-- One photo request issued by loadAlbums: the albumId query
parameter and the _limit query parameter of the URL. -/
structure PhotoRequest where
  albumId : Nat
  limit : Nat
  deriving DecidableEq, Repr

/-- Outcome of the photo fetches: for an album id, none when that
fetch (or its json call) threw, otherwise the parsed photo list. The
ok flag of the photo response is never inspected by the code. -/
def PhotoEnv : Type := Nat → Option (List Photo)

/-- The thumbnail stored for one album, from the JS expression
photos[0]?.thumbnailUrl || null: none when the photo list is empty or
the thumbnailUrl of the first photo is falsy (the empty string). -/
def jsThumb (photos : List Photo) : Option String :=
  match photos with
  | [] => none
  | p :: _ => if p.thumbnailUrl = "" then none else some p.thumbnailUrl

/-- The photo requests issued by the Promise.all over albumsData: one
per album, with the id of that album and _limit=1. All of them are started
by map even when one of them later rejects. -/
def photoRequests (albumsData : List Album) : List PhotoRequest :=
  albumsData.map (fun a => { albumId := a.id, limit := 1 })

/-- The Promise.all of the per-album fetch-and-extend callbacks:
rejects (none) as soon as the photo fetch of any album threw, otherwise
the list of albums each spread with its thumbnailUrl. -/
def attachThumbs (env : PhotoEnv) : List Album → Option (List AlbumWithThumb)
  | [] => some []
  | a :: rest =>
      match env a.id with
      | none => none
      | some photos =>
          match attachThumbs env rest with
          | none => none
          | some tl =>
              some ({ id := a.id, title := a.title, userId := a.userId,
                      thumbnailUrl := jsThumb photos } :: tl)

/-- First phase of loadAlbums: setLoadingAlbums(true); setError(""). -/
def loadAlbumsStart (s : AppState) : AppState :=
  { s with loadingAlbums := true, error := "" }

/-- Second phase of loadAlbums: on an ok albums response, run the
photo fetches; if every one resolves, store the extended albums,
otherwise the catch sets the shared error and the albums state is not
touched. A non-ok albums response or a thrown albums fetch also lands
in the catch, without issuing any photo request. The finally block
clears the loading flag on every path. Returns the successor state
and the list of photo requests issued. -/
def loadAlbumsFinish (s : AppState) (r : FetchResult (List Album)) (env : PhotoEnv) :
    AppState × List PhotoRequest :=
  match r with
  | FetchResult.success true albumsData =>
      (match attachThumbs env albumsData with
       | some awt => { s with albums := awt, loadingAlbums := false }
       | none => { s with error := "Failed to load albums.", loadingAlbums := false },
       photoRequests albumsData)
  | FetchResult.success false _ =>
      ({ s with error := "Failed to load albums.", loadingAlbums := false }, [])
  | FetchResult.failure =>
      ({ s with error := "Failed to load albums.", loadingAlbums := false }, [])

/-- loadAlbums run to completion against one albums response and the
photo fetch outcomes. -/
def loadAlbums (s : AppState) (r : FetchResult (List Album)) (env : PhotoEnv) :
    AppState × List PhotoRequest :=
  loadAlbumsFinish (loadAlbumsStart s) r env

/-! ### processFile (avatar drop / pick) -/

/-- Outcome of the FileReader.readAsDataURL call: the data URL on
load, or a read error. -/
inductive ReadResult where
  | success (dataUrl : String)
  | failure
  deriving DecidableEq, Repr

/-- processFile: nothing happens without a file; a MIME type not
starting with image/ or a size above 5 * 1024 * 1024 bytes each set
their own error message and return before the reader is created; only
the onload callback of the reader writes avatarPreview and avatarFile and
clears the error, while onerror sets a read error. -/
def processFile (s : AppState) (file : Option File) (read : ReadResult) : AppState :=
  match file with
  | none => s
  | some f =>
      if ¬ strStartsWith f.type "image/" then
        { s with error := "Please select a valid image." }
      else if f.size > 5 * 1024 * 1024 then
        { s with error := "Image must be < 5 MB." }
      else
        match read with
        | ReadResult.success dataUrl =>
            { s with avatarPreview := dataUrl, avatarFile := some f, error := "" }
        | ReadResult.failure =>
            { s with error := "Failed to read file." }

/-! ### handleSubmit (user create / update) and resetForm -/

/-- A user-form network request: PUT usersEndpoint/id for an edit,
POST usersEndpoint for a create. The request body only feeds the
server; the state update uses the response body, so the payload is
not part of the state model. -/
inductive SubmitRequest where
  | put (id : Nat)
  | post
  deriving DecidableEq, Repr

/-- resetForm: clears the user form fields, the stored avatar file,
the edit id and the shared error. -/
def resetForm (s : AppState) : AppState :=
  { s with name := "", email := "", avatarPreview := "", avatarFile := none,
           editId := none, error := "" }

/-- handleSubmit: when the trimmed name or trimmed email is empty, set
the validation error and return before any fetch; otherwise issue the
PUT (edit mode) or POST (create mode), on an ok response replace the
edited user by id (or prepend the created user) and reset the form,
on a non-ok response or a thrown fetch set the shared error; the
finally block clears formLoading. Returns the successor state and the
requests issued. -/
def handleSubmit (s : AppState) (r : FetchResult User) : AppState × List SubmitRequest :=
  if isBlank s.name ∨ isBlank s.email then
    ({ s with error := "Name and email required" }, [])
  else
    let s1 := { s with formLoading := true }
    match s.editId with
    | some eid =>
        (match r with
         | FetchResult.success true updated =>
             { resetForm { s1 with
                 users := s1.users.map (fun u => if u.id = eid then updated else u) } with
               formLoading := false }
         | FetchResult.success false _ =>
             { s1 with error := "Operation failed.", formLoading := false }
         | FetchResult.failure =>
             { s1 with error := "Operation failed.", formLoading := false },
         [SubmitRequest.put eid])
    | none =>
        (match r with
         | FetchResult.success true created =>
             { resetForm { s1 with users := created :: s1.users } with
               formLoading := false }
         | FetchResult.success false _ =>
             { s1 with error := "Operation failed.", formLoading := false }
         | FetchResult.failure =>
             { s1 with error := "Operation failed.", formLoading := false },
         [SubmitRequest.post])

/-! ### createPost -/

/-- createPost: when the trimmed title or trimmed body is empty, set
the validation error and return before any fetch; otherwise POST the
new post, and on an ok response prepend the response body with its id
replaced by Date.now() (the now argument), clear the post form and
hide it; a non-ok response or thrown fetch sets the shared error; the
finally block clears postLoading. The Bool is whether a fetch was
issued. -/
def createPost (s : AppState) (r : FetchResult Post) (now : Nat) : AppState × Bool :=
  if isBlank s.postTitle ∨ isBlank s.postBody then
    ({ s with error := "Title and body are required" }, false)
  else
    let s1 := { s with postLoading := true }
    match r with
    | FetchResult.success true created =>
        ({ s1 with posts := { created with id := now } :: s1.posts,
                   postTitle := "", postBody := "", showPostForm := false,
                   error := "", postLoading := false }, true)
    | FetchResult.success false _ =>
        ({ s1 with error := "Failed to create post.", postLoading := false }, true)
    | FetchResult.failure =>
        ({ s1 with error := "Failed to create post.", postLoading := false }, true)

/-! ### Modal helpers and tab clicks -/

/-- openUserPosts: select the user, clear posts, albums and the post
form flag, switch to the posts tab, and run loadPosts for the user.
The response argument is the posts response that call consumes. -/
def openUserPosts (u : User) (s : AppState) (r : FetchResult (List Post)) : AppState :=
  loadPosts
    { s with selectedUser := some u, posts := [], albums := [],
             showPostForm := false, activeTab := Tab.posts }
    r

/-- closePosts: clear the selected user, the posts and albums lists,
and the post form visibility flag. -/
def closePosts (s : AppState) : AppState :=
  { s with selectedUser := none, posts := [], albums := [], showPostForm := false }

/-- The Cancel button of the post form: hide the form and clear its
two text fields. -/
def cancelPostForm (s : AppState) : AppState :=
  { s with showPostForm := false, postTitle := "", postBody := "" }

/-- The Albums tab button onClick: switch the active tab, and call
loadAlbums only when the albums state is empty at click time. Returns
the successor state and the number of loadAlbums calls made (0 or 1);
the response and photo environment are consumed only when a call is
made. -/
def albumsTabClick (s : AppState) (r : FetchResult (List Album)) (env : PhotoEnv) :
    AppState × Nat :=
  let s1 := { s with activeTab := Tab.albums }
  if s1.albums.isEmpty then ((loadAlbums s1 r env).1, 1) else (s1, 0)

/-- The Posts tab button onClick: switch the active tab, and call
loadPosts only when the posts state is empty at click time. -/
def postsTabClick (s : AppState) (r : FetchResult (List Post)) : AppState × Nat :=
  let s1 := { s with activeTab := Tab.posts }
  if s1.posts.isEmpty then (loadPosts s1 r, 1) else (s1, 0)

/-! ### handleDelete -/

/-- handleDelete: nothing happens without confirmation; the DELETE
ok flag of the response is never inspected, so whenever the fetch resolves
the user with the given id is filtered out of the users list; only a
thrown fetch reaches the catch, which sets the delete error and
leaves the list alone; the finally block clears formLoading. -/
def handleDelete (s : AppState) (confirmed : Bool) (id : Nat)
    (r : FetchResult Unit) : AppState :=
  if ¬ confirmed then s
  else
    let s1 := { s with formLoading := true }
    match r with
    | FetchResult.success _ _ =>
        { s1 with users := s1.users.filter (fun u => u.id != id),
                  formLoading := false }
    | FetchResult.failure =>
        { s1 with error := "Delete failed.", formLoading := false }

/-! ### Concrete sample data used by witnesses and counterexamples -/

/-- A sample user record. -/
def demoUser : User :=
  { id := 7, name := "Ann", email := "ann@example.com", avatar := "" }

/-- A state holding a non-empty post draft. -/
def draftState : AppState :=
  { initState with postTitle := "Hello", postBody := "World",
                   selectedUser := some demoUser }

/-! ### Theorems -/

/-- C2: for every response list returned by the users endpoint,
loadUsers stores exactly the first 9 elements of that list as the
users state, in the response order, and therefore the whole list when
it has at most 9 elements. -/
theorem loadUsers_stores_first_nine (s : AppState) (data : List User) :
    (loadUsers s (FetchResult.success true data)).users = data.take 9 ∧
    (data.length ≤ 9 → (loadUsers s (FetchResult.success true data)).users = data) := by
  refine ⟨rfl, fun h => ?_⟩
  show data.take 9 = data
  exact List.take_of_length_le h

/-- C2 witness: a one-element response is stored whole. -/
theorem loadUsers_stores_first_nine_witness :
    (loadUsers initState (FetchResult.success true [demoUser])).users = [demoUser] :=
  (loadUsers_stores_first_nine initState [demoUser]).2 (by decide)

/-- C3: submitting the user form with a blank (empty or
whitespace-only) name or email issues no network request, sets the
validation error message and leaves the users list unchanged. -/
theorem handleSubmit_blank_fields_block (s : AppState) (r : FetchResult User)
    (h : isBlank s.name = true ∨ isBlank s.email = true) :
    (handleSubmit s r).2 = [] ∧
    (handleSubmit s r).1.error = "Name and email required" ∧
    (handleSubmit s r).1.users = s.users := by
  have hcond : (isBlank s.name ∨ isBlank s.email) := by
    rcases h with h | h
    · exact Or.inl (by rw [h])
    · exact Or.inr (by rw [h])
  unfold handleSubmit
  rw [if_pos hcond]
  exact ⟨rfl, rfl, rfl⟩

/-- C3 witness: a whitespace-only name with a non-empty email is
blocked before any request. -/
theorem handleSubmit_blank_fields_block_witness :
    (handleSubmit { initState with name := "  ", email := "ann@example.com" }
        FetchResult.failure).2 = [] ∧
    (handleSubmit { initState with name := "  ", email := "ann@example.com" }
        FetchResult.failure).1.error = "Name and email required" ∧
    (handleSubmit { initState with name := "  ", email := "ann@example.com" }
        FetchResult.failure).1.users = [] :=
  handleSubmit_blank_fields_block
    { initState with name := "  ", email := "ann@example.com" }
    FetchResult.failure (Or.inl (by decide))

/-- C4: a file whose MIME type does not start with image/ gets the
invalid-image message, an image file larger than 5 * 1024 * 1024
bytes gets the size message, and in both cases avatarPreview and
avatarFile are unchanged. -/
theorem processFile_rejects_invalid (s : AppState) (f : File) (read : ReadResult)
    (h : strStartsWith f.type "image/" = false ∨ f.size > 5 * 1024 * 1024) :
    (processFile s (some f) read).error =
      (if strStartsWith f.type "image/" then "Image must be < 5 MB."
       else "Please select a valid image.") ∧
    (processFile s (some f) read).avatarPreview = s.avatarPreview ∧
    (processFile s (some f) read).avatarFile = s.avatarFile := by
  unfold processFile
  cases hst : strStartsWith f.type "image/" with
  | false => simp [hst]
  | true =>
      have hsz : f.size > 5 * 1024 * 1024 := by
        rcases h with h | h
        · rw [hst] at h; cases h
        · exact h
      simp [hst, hsz]

/-- C4 witness: a small text file is rejected as not an image and the
avatar state is untouched. -/
theorem processFile_rejects_invalid_witness :
    (processFile initState (some { type := "text/plain", size := 3 })
        ReadResult.failure).error = "Please select a valid image." ∧
    (processFile initState (some { type := "text/plain", size := 3 })
        ReadResult.failure).avatarPreview = "" ∧
    (processFile initState (some { type := "text/plain", size := 3 })
        ReadResult.failure).avatarFile = none :=
  processFile_rejects_invalid initState { type := "text/plain", size := 3 }
    ReadResult.failure (Or.inl (by decide))

/-- C5: on a successful post creation the id of the response body is
discarded: the post placed at the head of the posts list carries the
client timestamp (the now argument) as id together with the response
other fields of the response body, and every previously held post follows it. -/
theorem createPost_replaces_server_id (s : AppState) (created : Post) (now : Nat)
    (h1 : isBlank s.postTitle = false) (h2 : isBlank s.postBody = false) :
    (createPost s (FetchResult.success true created) now).1.posts =
      { id := now, title := created.title, body := created.body,
        userId := created.userId } :: s.posts := by
  unfold createPost
  rw [if_neg (by rw [h1, h2]; simp)]

/-- C5 witness: the server id 99 is replaced by the timestamp 123
and the previously empty list follows. -/
theorem createPost_replaces_server_id_witness :
    (createPost draftState
        (FetchResult.success true { id := 99, title := "Hello", body := "World", userId := 7 })
        123).1.posts =
      [{ id := 123, title := "Hello", body := "World", userId := 7 }] :=
  createPost_replaces_server_id draftState
    { id := 99, title := "Hello", body := "World", userId := 7 } 123
    (by decide) (by decide)

/-- C6: closePosts empties the posts list and the albums list, clears
the selected user, and hides the new-post form. -/
theorem closePosts_clears_modal_state (s : AppState) :
    (closePosts s).posts = [] ∧ (closePosts s).albums = [] ∧
    (closePosts s).selectedUser = none ∧ (closePosts s).showPostForm = false :=
  ⟨rfl, rfl, rfl, rfl⟩

/-- C8: a confirmed delete filters the user with the given id out of
the users list whenever the fetch resolves, the ok flag of the response
being ignored (ok is universally quantified, so in particular false),
and only a thrown fetch sets the delete error and leaves the list
unchanged. -/
theorem handleDelete_ignores_http_status (s : AppState) (id : Nat) (ok : Bool) :
    (handleDelete s true id (FetchResult.success ok ())).users =
        s.users.filter (fun u => u.id != id) ∧
    (handleDelete s true id (FetchResult.success ok ())).error = s.error ∧
    (handleDelete s true id FetchResult.failure).users = s.users ∧
    (handleDelete s true id FetchResult.failure).error = "Delete failed." :=
  ⟨rfl, rfl, rfl, rfl⟩

/-- C9: neither closing the modal nor opening it for another user
touches the two text fields of the new-post form, so an unpublished
draft survives across modal sessions. -/
theorem draft_text_persists_across_sessions (s : AppState) (u : User)
    (r : FetchResult (List Post)) :
    (closePosts s).postTitle = s.postTitle ∧
    (closePosts s).postBody = s.postBody ∧
    (openUserPosts u s r).postTitle = s.postTitle ∧
    (openUserPosts u s r).postBody = s.postBody := by
  refine ⟨rfl, rfl, ?_, ?_⟩ <;>
    · cases r with
      | success ok data => cases ok <;> rfl
      | failure => rfl

/-- C10: each of loadUsers, loadPosts and loadAlbums clears the shared
error string when it starts, holds its loading flag true from the
start phase on, and resets the flag to false once finished, whatever
the response (success with any ok flag, or a thrown fetch). -/
theorem loaders_clear_error_and_toggle_flags (s : AppState)
    (r1 : FetchResult (List User)) (r2 : FetchResult (List Post))
    (r3 : FetchResult (List Album)) (env : PhotoEnv) :
    (loadUsersStart s).error = "" ∧ (loadUsersStart s).loadingUsers = true ∧
    (loadUsersFinish (loadUsersStart s) r1).loadingUsers = false ∧
    (loadPostsStart s).error = "" ∧ (loadPostsStart s).loadingPosts = true ∧
    (loadPostsFinish (loadPostsStart s) r2).loadingPosts = false ∧
    (loadAlbumsStart s).error = "" ∧ (loadAlbumsStart s).loadingAlbums = true ∧
    ((loadAlbumsFinish (loadAlbumsStart s) r3 env).1).loadingAlbums = false := by
  refine ⟨rfl, rfl, ?_, rfl, rfl, ?_, rfl, rfl, ?_⟩
  · cases r1 with
    | success ok data => cases ok <;> rfl
    | failure => rfl
  · cases r2 with
    | success ok data => cases ok <;> rfl
    | failure => rfl
  · cases r3 with
    | success ok data =>
        cases ok
        · rfl
        · unfold loadAlbumsFinish
          cases h : attachThumbs env data <;> simp [h]
    | failure => rfl

/-- loadAlbums never changes the active tab. -/
theorem loadAlbums_preserves_activeTab (s : AppState)
    (r : FetchResult (List Album)) (env : PhotoEnv) :
    ((loadAlbums s r env).1).activeTab = s.activeTab := by
  cases r with
  | success ok data =>
      cases ok
      · rfl
      · unfold loadAlbums loadAlbumsFinish
        cases h : attachThumbs env data <;> simp [h, loadAlbumsStart]
  | failure => rfl

/-- C1 (amended): a click on the Albums tab activates the tab and
calls loadAlbums exactly when the albums state is empty at click
time, so a fetch that stored a non-empty album list suppresses
further fetches, while after a failed fetch or one that stored an
empty list a reselection fetches again. -/
theorem albumsTabClick_fetches_iff_albums_empty (s : AppState)
    (r : FetchResult (List Album)) (env : PhotoEnv) :
    (albumsTabClick s r env).2 = (if s.albums.isEmpty then 1 else 0) ∧
    (albumsTabClick s r env).1.activeTab = Tab.albums := by
  unfold albumsTabClick
  cases h : s.albums.isEmpty with
  | true =>
      refine ⟨by simp [h], ?_⟩
      simp only [h, if_true]
      exact loadAlbums_preserves_activeTab { s with activeTab := Tab.albums } r env
  | false => exact ⟨by simp [h], by simp [h]⟩

/-- C1 counterexample: in a single modal session whose user has no
albums (the albums endpoint answers ok with the empty list), the
first Albums-tab click calls loadAlbums and a second click calls it
again, so the session makes two album fetches, not exactly one. -/
theorem albumsTab_two_fetches_one_session :
    (albumsTabClick (openUserPosts demoUser initState (FetchResult.success true []))
        (FetchResult.success true []) (fun _ => none)).2 +
    (albumsTabClick
        (albumsTabClick (openUserPosts demoUser initState (FetchResult.success true []))
          (FetchResult.success true []) (fun _ => none)).1
        (FetchResult.success true []) (fun _ => none)).2 = 2 := rfl

/-- When the photo fetch of every album resolves, the Promise.all resolves
to the albums each extended with the thumbnail derived from its photo
list. -/
theorem attachThumbs_all_resolved (env : PhotoEnv) (l : List Album)
    (h : l.all (fun a => (env a.id).isSome) = true) :
    attachThumbs env l = some (l.map (fun a =>
      { id := a.id, title := a.title, userId := a.userId,
        thumbnailUrl := jsThumb ((env a.id).getD []) })) := by
  induction l with
  | nil => rfl
  | cons a rest ih =>
      simp only [List.all_cons, Bool.and_eq_true] at h
      obtain ⟨ha, hrest⟩ := h
      cases henv : env a.id with
      | none => rw [henv] at ha; simp at ha
      | some photos => simp [attachThumbs, henv, ih hrest]

/-- When the photo fetch of some album throws, the Promise.all rejects. -/
theorem attachThumbs_some_threw (env : PhotoEnv) (l : List Album)
    (h : l.all (fun a => (env a.id).isSome) = false) :
    attachThumbs env l = none := by
  induction l with
  | nil => simp at h
  | cons a rest ih =>
      cases henv : env a.id with
      | none => simp [attachThumbs, henv]
      | some photos =>
          simp only [List.all_cons, henv, Option.isSome_some, Bool.true_and] at h
          simp [attachThumbs, henv, ih h]

/-- C7 (amended): on an ok albums response, loadAlbums issues exactly
one photo request per album, carrying the id of that album and _limit=1;
when every photo fetch resolves it stores each album extended with
the thumbnailUrl of the first returned photo when that string is
non-empty, and null when no photo was returned or the thumbnailUrl is
the empty string (jsThumb), leaving the error cleared; when any
single photo fetch throws, the albums state is left unchanged and the
shared error is set to the albums failure message. -/
theorem loadAlbums_requests_and_thumbnails (s : AppState)
    (albumsData : List Album) (env : PhotoEnv) :
    (loadAlbums s (FetchResult.success true albumsData) env).2 =
        albumsData.map (fun a => { albumId := a.id, limit := 1 }) ∧
    (loadAlbums s (FetchResult.success true albumsData) env).1.albums =
      (if albumsData.all (fun a => (env a.id).isSome) then
        albumsData.map (fun a =>
          { id := a.id, title := a.title, userId := a.userId,
            thumbnailUrl := jsThumb ((env a.id).getD []) })
       else s.albums) ∧
    (loadAlbums s (FetchResult.success true albumsData) env).1.error =
      (if albumsData.all (fun a => (env a.id).isSome) then ""
       else "Failed to load albums.") := by
  cases hall : albumsData.all (fun a => (env a.id).isSome) with
  | true =>
      refine ⟨rfl, ?_, ?_⟩ <;>
        simp [loadAlbums, loadAlbumsStart, loadAlbumsFinish,
              attachThumbs_all_resolved env albumsData hall, hall]
  | false =>
      refine ⟨rfl, ?_, ?_⟩ <;>
        simp [loadAlbums, loadAlbumsStart, loadAlbumsFinish,
              attachThumbs_some_threw env albumsData hall, hall]

/-- A photo environment whose single photo carries an empty
thumbnailUrl string. -/
def blankThumbEnv : PhotoEnv := fun _ => some [{ thumbnailUrl := "" }]

/-- C7 counterexample: for one album whose photo fetch returns a photo
with thumbnailUrl equal to the empty string, loadAlbums stores null
(none) as the album thumbnail, not the thumbnailUrl of the first
thumbnailUrl (some ""), because the JS fallback collapses the falsy
empty string. -/
theorem loadAlbums_collapses_falsy_thumbnail :
    (loadAlbums initState
        (FetchResult.success true [{ id := 1, title := "vacation", userId := 4 }])
        blankThumbEnv).1.albums.map AlbumWithThumb.thumbnailUrl = [none] ∧
    (none : Option String) ≠ some (Photo.mk "").thumbnailUrl := by
  exact ⟨rfl, by simp⟩

end UserManager
